import Mathlib

/-!
Verification development for the Magikarp_Quant front-end relay
(`src/FrontEnd/application.py` and `src/FrontEnd/src/time_utils.py`).

The Python module keeps one module-level upstream client (`ws_client`), one
aggregate subscription list (`current_subs`), Socket.IO handlers
`subscribe_one` / `unsubscribe_one`, a REST endpoint `get_subs`, and a
message callback `handle_msg` that normalizes vendor messages and broadcasts
them.  Everything below is a shallow embedding of that code: Python ints are
`Int`, Python floats arising from true division are `Rat`, `None` is `none`,
and calls into external collaborators (the polygon `WebSocketClient`, the
`datetime`/`zoneinfo` library, Socket.IO emission) are modelled explicitly
where the handlers observe their effects.
-/

namespace Magikarp

/-! ## Time utilities (`src/FrontEnd/src/time_utils.py`)

`to_iso_utc` / `to_iso_et` receive an epoch value `ts` (milliseconds or
seconds), divide by 1000 when `ts > 1e12`, and render ISO-8601 strings via
`datetime.fromtimestamp` and `zoneinfo`.  The calendar arithmetic below
models those external library calls: days/civil conversion is the standard
proleptic-Gregorian algorithm, and the America/New_York offset follows the
post-2007 United States DST rule recorded in the tz database (EST = UTC-5,
EDT = UTC-4, DST from the second Sunday in March 07:00 UTC to the first
Sunday in November 06:00 UTC).  CPython additionally restricts years to
1..9999 and rounds float timestamps to whole microseconds; neither limit is
exercised by the inputs stated in the theorems (whole seconds, year 2023).
-/

/-- Civil date (year, month, day) from days since the epoch 1970-01-01,
proleptic Gregorian calendar. -/
def civilFromDays (z0 : Int) : Int × Int × Int :=
  let z := z0 + 719468
  let era : Int := (if 0 ≤ z then z else z - 146096) / 146097
  let doe : Int := z - era * 146097
  let yoe : Int := (doe - doe / 1460 + doe / 36524 - doe / 146096) / 365
  let y : Int := yoe + era * 400
  let doy : Int := doe - (365 * yoe + yoe / 4 - yoe / 100)
  let mp : Int := (5 * doy + 2) / 153
  let d : Int := doy - (153 * mp + 2) / 5 + 1
  let m : Int := mp + (if mp < 10 then 3 else -9)
  (y + (if m ≤ 2 then 1 else 0), m, d)

/-- Days since 1970-01-01 of a civil (year, month, day), proleptic
Gregorian calendar; inverse of `civilFromDays`. -/
def daysFromCivil (y0 m d : Int) : Int :=
  let y : Int := y0 - (if m ≤ 2 then 1 else 0)
  let era : Int := (if 0 ≤ y then y else y - 399) / 400
  let yoe : Int := y - era * 400
  let doy : Int := (153 * (m + (if 2 < m then -3 else 9)) + 2) / 5 + d - 1
  let doe : Int := yoe * 365 + yoe / 4 - yoe / 100 + doy
  era * 146097 + doe - 719468

/-- Day of week of a day count since the epoch; 0 = Sunday
(1970-01-01 was a Thursday, value 4). -/
def dayOfWeek (z : Int) : Int :=
  (z + 4).emod 7

/-- Left-pad the decimal rendering of `n` with zeros to width `w`. -/
def padNum (w : Nat) (n : Nat) : String :=
  let s := toString n
  if s.length < w then String.mk (List.replicate (w - s.length) '0') ++ s else s

/-- The UTC instant, in epoch seconds, at which US daylight saving time
starts in year `y`: second Sunday in March, 02:00 EST = 07:00 UTC. -/
def dstStartUtc (y : Int) : Int :=
  let mar1 := daysFromCivil y 3 1
  let firstSunday := mar1 + (7 - dayOfWeek mar1).emod 7
  (firstSunday + 7) * 86400 + 7 * 3600

/-- The UTC instant, in epoch seconds, at which US daylight saving time
ends in year `y`: first Sunday in November, 02:00 EDT = 06:00 UTC. -/
def dstEndUtc (y : Int) : Int :=
  let nov1 := daysFromCivil y 11 1
  let firstSunday := nov1 + (7 - dayOfWeek nov1).emod 7
  firstSunday * 86400 + 6 * 3600

/-- Whether the UTC instant `secs` (epoch seconds) falls inside US daylight
saving time for America/New_York. -/
def isDstNewYork (secs : Int) : Bool :=
  let y := (civilFromDays (secs.fdiv 86400)).1
  dstStartUtc y ≤ secs ∧ secs < dstEndUtc y

/-- UTC offset, in seconds, of America/New_York at the UTC instant `secs`. -/
def newYorkOffset (secs : Int) : Int :=
  if isDstNewYork secs then -4 * 3600 else -5 * 3600

/-- Render an ISO-8601 string for the instant `secs` seconds after the epoch
shifted by `offsetSecs`, with `offsetStr` as the trailing UTC-offset text;
models `datetime.isoformat()` for whole-second, microsecond-free values. -/
def isoStringAt (secs offsetSecs : Int) (offsetStr : String) : String :=
  let localSecs := secs + offsetSecs
  let days := localSecs.fdiv 86400
  let sod := (localSecs - days * 86400).toNat
  let ymd := civilFromDays days
  padNum 4 ymd.1.toNat ++ "-" ++ padNum 2 ymd.2.1.toNat ++ "-" ++
    padNum 2 ymd.2.2.toNat ++ "T" ++ padNum 2 (sod / 3600) ++ ":" ++
    padNum 2 (sod % 3600 / 60) ++ ":" ++ padNum 2 (sod % 60) ++ offsetStr

/-- Render the UTC offset `offsetSecs` (a whole number of seconds, negative
west of Greenwich) as the ISO-8601 suffix, e.g. `-05:00`. -/
def offsetSuffix (offsetSecs : Int) : String :=
  let sign := if offsetSecs < 0 then "-" else "+"
  let a := offsetSecs.natAbs
  sign ++ padNum 2 (a / 3600) ++ ":" ++ padNum 2 (a % 3600 / 60)

/-- `ts_s = ts / 1000 if ts > 1e12 else ts` (time_utils.py lines 10 and 17):
the raw epoch value is strictly compared with 1e12; above it the value is
taken as milliseconds, otherwise as seconds.  Python true division yields a
float, modelled as a rational. -/
def tsToSeconds (ts : Int) : Rat :=
  if (ts : Rat) > 10 ^ 12 then (ts : Rat) / 1000 else (ts : Rat)

/-- `to_iso_utc` (time_utils.py): `None` passes through; otherwise the
disambiguated epoch seconds are rendered as a UTC ISO-8601 string.  The
theorems only evaluate it at whole-second instants, where the rational is
an integer and taking its floor is exact. -/
def to_iso_utc (ts : Option Int) : Option String :=
  match ts with
  | none => none
  | some t =>
    let s : Int := ⌊tsToSeconds t⌋
    some (isoStringAt s 0 "+00:00")

/-- `to_iso_et` (time_utils.py): as `to_iso_utc` but converted to
America/New_York via the modelled tz-database rule. -/
def to_iso_et (ts : Option Int) : Option String :=
  match ts with
  | none => none
  | some t =>
    let s : Int := ⌊tsToSeconds t⌋
    let off := newYorkOffset s
    some (isoStringAt s off (offsetSuffix off))

/-! ## Vendor messages and normalization (`application.py`, `handle_msg`)

The polygon client delivers batches of `WebSocketMessage` values.  The two
message shapes relevant to the spec (NormalizedEvent kinds Trade and
MinuteAggregate) are the library dataclasses `EquityTrade` and `EquityAgg`.
Every dataclass field is optional with default `None`; crucially,
`EquityTrade` has a `timestamp` attribute but no `end_timestamp` /
aggregate attributes, while `EquityAgg` has `start_timestamp` /
`end_timestamp` and the OHLCV attributes but no `timestamp` attribute.
`getattr(m, name, default)` returns the attribute value (possibly `None`)
when the attribute exists and `default` only when it does not, so each
`getattr_*` function below falls back to its `dflt` argument exactly on
the constructor lacking the attribute. -/

/-- The polygon `EquityTrade` dataclass fields read by the code. -/
structure EquityTrade where
  event_type : Option String := none
  symbol : Option String := none
  timestamp : Option Int := none
  price : Option Rat := none
  size : Option Int := none
  deriving DecidableEq, Repr

/-- The polygon `EquityAgg` dataclass fields read by the code. -/
structure EquityAgg where
  event_type : Option String := none
  symbol : Option String := none
  volume : Option Rat := none
  accumulated_volume : Option Rat := none
  official_open_price : Option Rat := none
  vwap : Option Rat := none
  «open» : Option Rat := none
  close : Option Rat := none
  high : Option Rat := none
  low : Option Rat := none
  aggregate_vwap : Option Rat := none
  average_size : Option Rat := none
  start_timestamp : Option Int := none
  end_timestamp : Option Int := none
  otc : Option Bool := none
  deriving DecidableEq, Repr

/-- A vendor message delivered to `handle_msg`. -/
inductive WebSocketMessage where
  | trade (t : EquityTrade)
  | agg (a : EquityAgg)
  deriving DecidableEq, Repr

/-- `getattr(m, "event_type", dflt)`: both shapes carry the attribute. -/
def getattr_event_type (m : WebSocketMessage) (dflt : Option String) : Option String :=
  match m with
  | .trade t => t.event_type
  | .agg a => a.event_type

/-- `getattr(m, "symbol", dflt)`: both shapes carry the attribute. -/
def getattr_symbol (m : WebSocketMessage) (dflt : Option String) : Option String :=
  match m with
  | .trade t => t.symbol
  | .agg a => a.symbol

/-- `getattr(m, "ticker", dflt)`: neither shape carries the attribute. -/
def getattr_ticker (m : WebSocketMessage) (dflt : Option String) : Option String :=
  match m with
  | .trade _ => dflt
  | .agg _ => dflt

/-- `getattr(m, "timestamp", dflt)`: present on `EquityTrade` only. -/
def getattr_timestamp (m : WebSocketMessage) (dflt : Option Int) : Option Int :=
  match m with
  | .trade t => t.timestamp
  | .agg _ => dflt

/-- `getattr(m, "start_timestamp", dflt)`: present on `EquityAgg` only. -/
def getattr_start_timestamp (m : WebSocketMessage) (dflt : Option Int) : Option Int :=
  match m with
  | .trade _ => dflt
  | .agg a => a.start_timestamp

/-- `getattr(m, "end_timestamp", dflt)`: present on `EquityAgg` only. -/
def getattr_end_timestamp (m : WebSocketMessage) (dflt : Option Int) : Option Int :=
  match m with
  | .trade _ => dflt
  | .agg a => a.end_timestamp

/-- `getattr(m, "volume", dflt)`: present on `EquityAgg` only. -/
def getattr_volume (m : WebSocketMessage) (dflt : Option Rat) : Option Rat :=
  match m with
  | .trade _ => dflt
  | .agg a => a.volume

/-- `getattr(m, "accumulated_volume", dflt)`: present on `EquityAgg` only. -/
def getattr_accumulated_volume (m : WebSocketMessage) (dflt : Option Rat) : Option Rat :=
  match m with
  | .trade _ => dflt
  | .agg a => a.accumulated_volume

/-- `getattr(m, "official_open_price", dflt)`: present on `EquityAgg` only. -/
def getattr_official_open_price (m : WebSocketMessage) (dflt : Option Rat) : Option Rat :=
  match m with
  | .trade _ => dflt
  | .agg a => a.official_open_price

/-- `getattr(m, "vwap", dflt)`: present on `EquityAgg` only. -/
def getattr_vwap (m : WebSocketMessage) (dflt : Option Rat) : Option Rat :=
  match m with
  | .trade _ => dflt
  | .agg a => a.vwap

/-- `getattr(m, "open", dflt)`: present on `EquityAgg` only. -/
def getattr_open (m : WebSocketMessage) (dflt : Option Rat) : Option Rat :=
  match m with
  | .trade _ => dflt
  | .agg a => a.«open»

/-- `getattr(m, "close", dflt)`: present on `EquityAgg` only. -/
def getattr_close (m : WebSocketMessage) (dflt : Option Rat) : Option Rat :=
  match m with
  | .trade _ => dflt
  | .agg a => a.close

/-- `getattr(m, "high", dflt)`: present on `EquityAgg` only. -/
def getattr_high (m : WebSocketMessage) (dflt : Option Rat) : Option Rat :=
  match m with
  | .trade _ => dflt
  | .agg a => a.high

/-- `getattr(m, "low", dflt)`: present on `EquityAgg` only. -/
def getattr_low (m : WebSocketMessage) (dflt : Option Rat) : Option Rat :=
  match m with
  | .trade _ => dflt
  | .agg a => a.low

/-- `getattr(m, "aggregate_vwap", dflt)`: present on `EquityAgg` only. -/
def getattr_aggregate_vwap (m : WebSocketMessage) (dflt : Option Rat) : Option Rat :=
  match m with
  | .trade _ => dflt
  | .agg a => a.aggregate_vwap

/-- `getattr(m, "average_size", dflt)`: present on `EquityAgg` only. -/
def getattr_average_size (m : WebSocketMessage) (dflt : Option Rat) : Option Rat :=
  match m with
  | .trade _ => dflt
  | .agg a => a.average_size

/-- `getattr(m, "otc", dflt)`: present on `EquityAgg` only; the call site
passes `False` as the default, so an `EquityTrade` yields `some false`
while an `EquityAgg` yields its (possibly `None`) field value. -/
def getattr_otc (m : WebSocketMessage) (dflt : Option Bool) : Option Bool :=
  match m with
  | .trade _ => dflt
  | .agg a => a.otc

/-- The aggregate block added by `data.update({...})` when `ev == "AM"`
(application.py lines 66-85). -/
structure AMFields where
  v : Option Rat
  av : Option Rat
  op : Option Rat
  vw : Option Rat
  o : Option Rat
  c : Option Rat
  h : Option Rat
  l : Option Rat
  a : Option Rat
  z : Option Rat
  s : Option Int
  e : Option Int
  otc : Option Bool
  deriving DecidableEq, Repr

/-- The normalized event dictionary built by `handle_msg` for one message
(application.py lines 57-85); `agg` is `some _` exactly when the
`ev == "AM"` branch ran `data.update`. -/
structure NormalizedData where
  ev : Option String
  sym : Option String
  t : Option Int
  t_utc : Option String
  t_et : Option String
  agg : Option AMFields
  deriving DecidableEq, Repr

/-- The per-message body of the `for m in msgs` loop in `handle_msg`
(application.py lines 50-85): extract the common fields via the `getattr`
chains, derive both ISO-8601 timestamps, and attach the aggregate block
when the event type is `"AM"`. -/
def normalizeMsg (m : WebSocketMessage) : NormalizedData :=
  let ev := getattr_event_type m none
  let sym := getattr_symbol m (getattr_ticker m none)
  let ts := getattr_timestamp m (getattr_end_timestamp m none)
  let base : NormalizedData :=
    { ev := ev, sym := sym, t := ts, t_utc := to_iso_utc ts, t_et := to_iso_et ts, agg := none }
  if ev = some "AM" then
    { base with agg := some {
          v := getattr_volume m none
          av := getattr_accumulated_volume m none
          op := getattr_official_open_price m none
          vw := getattr_vwap m none
          o := getattr_open m none
          c := getattr_close m none
          h := getattr_high m none
          l := getattr_low m none
          a := getattr_aggregate_vwap m none
          z := getattr_average_size m none
          s := getattr_start_timestamp m none
          e := getattr_end_timestamp m none
          otc := getattr_otc m (some false) } }
  else base

/-- `handle_msg` normalizes every message of the batch in order; one
normalized event is produced per vendor message, so a partial message
never aborts the rest of the batch. -/
def handle_msg (msgs : List WebSocketMessage) : List NormalizedData :=
  msgs.map normalizeMsg

/-! ## Socket.IO emission and the upstream client

`sio.emit(event, payload)` without a `to=` argument broadcasts to every
connected session; with `to=sid` it reaches that session only.  An `Emit`
value records one such call.  The upstream polygon `WebSocketClient` is
modelled by its observable state: the symbol set it carries and whether it
has been closed.  Whether a `client.subscribe` / `client.unsubscribe` call
raises is decided by the external vendor, so the handlers take a boolean
`upstreamOk` oracle for the outcome of the upstream call they may make. -/

/-- One `sio.emit` call made by a handler or by the message callback. -/
inductive Emit where
  | subscribed (subscriptions : List String) (reason : Option String) («to» : Option String)
  | unsubscribed (subscriptions : List String) (reason : String) («to» : Option String)
  | polygonData (data : NormalizedData) («to» : Option String)
  deriving DecidableEq, Repr

/-- The sessions a single emission reaches: the addressee when `to=` was
given, every connected session otherwise. -/
def emitRecipients (connected : List String) : Emit → List String
  | .subscribed _ _ (some sid) => [sid]
  | .subscribed _ _ none => connected
  | .unsubscribed _ _ (some sid) => [sid]
  | .unsubscribed _ _ none => connected
  | .polygonData _ (some sid) => [sid]
  | .polygonData _ none => connected

/-- `_emit_polygon_data(data, sid)` (application.py lines 31-33): the
targeted `to=sid` emission is commented out in the source; the live line
broadcasts the event to all sessions, ignoring `sid`. -/
def _emit_polygon_data (data : NormalizedData) (sid : String) : Emit :=
  Emit.polygonData data none

/-- The emissions scheduled by one `handle_msg` callback invocation
(application.py lines 50-88): one broadcast per message in the batch. -/
def handle_msg_emits (msgs : List WebSocketMessage) (sid : String) : List Emit :=
  msgs.map (fun m => _emit_polygon_data (normalizeMsg m) sid)

/-- Observable state of the polygon `WebSocketClient` collaborator: the
subscriptions it carries and whether `close()` has been called on it. -/
structure WSClient where
  subscriptions : List String
  closed : Bool
  deriving DecidableEq, Repr

/-- The module-level mutable state of application.py: `ws_client` (lines
24, 98) and `current_subs` (lines 26, 99).  `ws_thread` carries no
observable state beyond the client it installs and is dropped. -/
structure ServerState where
  ws_client : Option WSClient
  current_subs : List String
  deriving DecidableEq, Repr

/-- The initial module state: no client, empty subscription list. -/
def initState : ServerState := { ws_client := none, current_subs := [] }

/-- The response body of the REST endpoint `/api/subs`. -/
structure SubsResponse where
  subs : List String
  deriving DecidableEq, Repr

/-- `get_subs` (application.py lines 37-40): returns the current aggregate
subscription list as `{"subs": current_subs}`. -/
def get_subs (st : ServerState) : SubsResponse :=
  { subs := st.current_subs }

/-- A Python exception escaping a handler. -/
inductive PyError where
  | indexError
  deriving DecidableEq, Repr

/-- Outcome of one handler invocation: the module state afterwards, the
`sio.emit` calls made, and the lines printed (the except-branch logs). -/
structure HandlerResult where
  state : ServerState
  emits : List Emit
  logs : List String
  deriving DecidableEq, Repr

/-- The log line of the except branch of `subscribe_one` (line 140). -/
def subscribeErrorLog (sym sid : String) : String :=
  "Error subscribing " ++ sym ++ " for " ++ sid ++ ": upstream error"

/-- The log line of the except branch of `unsubscribe_one` (line 169). -/
def unsubscribeErrorLog : String :=
  "unsubscribe error: upstream error"

/-- The inbound command payload: `msg.get("subscriptions", [])` is the
value under the `subscriptions` key when present, else the empty list. -/
def msgSubscriptions (msg : Option (List String)) : List String :=
  msg.getD []

/-- `subscribe_one` (application.py lines 113-147).  `msg[...][0]` raises
`IndexError` on an empty list.  With no client, `polygon_thread` is
started: once settled it has installed a fresh open `WebSocketClient`
carrying the single requested symbol and set `current_subs` to that
singleton (lines 91-99), and the handler has acknowledged.  With a client,
a symbol already in `current_subs` skips the upstream call; otherwise
`client.subscribe` is attempted — on success (`upstreamOk`) the symbol is
appended to the client set and to `current_subs`, on failure the handler
logs and returns without acknowledging. -/
def subscribe_one (upstreamOk : Bool) (sid : String) (msg : Option (List String))
    (st : ServerState) : Except PyError HandlerResult :=
  match (msgSubscriptions msg).head? with
  | none => .error .indexError
  | some sub_to_add =>
    match st.ws_client with
    | none =>
      .ok { state := { ws_client := some { subscriptions := [sub_to_add], closed := false },
                       current_subs := [sub_to_add] },
            emits := [.subscribed [sub_to_add] none (some sid)],
            logs := [] }
    | some client =>
      if sub_to_add ∈ st.current_subs then
        .ok { state := st,
              emits := [.subscribed [sub_to_add] (some "added to existing connection") (some sid)],
              logs := [] }
      else if upstreamOk then
        .ok { state := { ws_client := some { client with
                           subscriptions := client.subscriptions ++ [sub_to_add] },
                         current_subs := st.current_subs ++ [sub_to_add] },
              emits := [.subscribed [sub_to_add] (some "added to existing connection") (some sid)],
              logs := [] }
      else
        .ok { state := st, emits := [], logs := [subscribeErrorLog sub_to_add sid] }

/-- `unsubscribe_one` (application.py lines 151-186).  `msg[...][0]` raises
`IndexError` on an empty list.  With no client the handler acknowledges
`"no active client"`.  Otherwise `client.unsubscribe` is attempted inside
try/except — a failure is only logged; the local list update, the
`"manual unsubscribe"` acknowledgement, and the close-when-empty step all
run regardless.  `subs_list.remove` deletes the first occurrence and is
guarded by a membership test. -/
def unsubscribe_one (upstreamOk : Bool) (sid : String) (msg : Option (List String))
    (st : ServerState) : Except PyError HandlerResult :=
  match (msgSubscriptions msg).head? with
  | none => .error .indexError
  | some sub_to_remove =>
    match st.ws_client with
    | none =>
      .ok { state := st,
            emits := [.unsubscribed [] "no active client" (some sid)],
            logs := [] }
    | some client =>
      let client1 : WSClient :=
        if upstreamOk then { client with subscriptions := client.subscriptions.erase sub_to_remove }
        else client
      let logs1 : List String := if upstreamOk then [] else [unsubscribeErrorLog]
      let subs1 : List String :=
        if sub_to_remove ∈ st.current_subs then st.current_subs.erase sub_to_remove
        else st.current_subs
      let client2 : WSClient :=
        if subs1 = [] then { client1 with closed := true } else client1
      .ok { state := { ws_client := some client2, current_subs := subs1 },
            emits := [.unsubscribed [sub_to_remove] "manual unsubscribe" (some sid)],
            logs := logs1 }

/-! ## Settled command sequences

For the aggregate-invariant claim, a sequence of `subscribe_one` /
`unsubscribe_one` commands is run to completion, each carrying one symbol
(the wire shape `{subscriptions: [symbol]}`) and with every upstream call
succeeding (`upstreamOk = true`); the state after each handler is taken as
the settled state. -/

/-- One inbound command on the wire. -/
inductive Cmd where
  | sub (sym : String)
  | unsub (sym : String)
  deriving DecidableEq, Repr

/-- Whether a command is a subscribe. -/
def Cmd.isSub : Cmd → Bool
  | .sub _ => true
  | .unsub _ => false

/-- Whether a command is an unsubscribe. -/
def Cmd.isUnsub : Cmd → Bool
  | .sub _ => false
  | .unsub _ => true

/-- Run one command from session `"s1"` with a succeeding upstream; both
handlers return `.ok` on a one-element subscriptions list, so the error
branch is unreachable here. -/
def stepCmd (st : ServerState) (c : Cmd) : ServerState :=
  match c with
  | .sub s =>
    match subscribe_one true "s1" (some [s]) st with
    | .ok r => r.state
    | .error _ => st
  | .unsub s =>
    match unsubscribe_one true "s1" (some [s]) st with
    | .ok r => r.state
    | .error _ => st

/-- The settled state after a command sequence starting from the module
initial state. -/
def runCmds (cs : List Cmd) : ServerState :=
  cs.foldl stepCmd initState

/-- A live upstream client: `ws_client` holds a connection that has not
been closed. -/
def liveClient (st : ServerState) : Bool :=
  match st.ws_client with
  | some c => !c.closed
  | none => false

/-! ## Concrete fixtures used by the theorems -/

/-- A (partial) trade message for MSFT as delivered by the vendor. -/
def msftTrade : WebSocketMessage :=
  .trade { event_type := some "T", symbol := some "MSFT" }

/-- Desired-symbol sets of a two-session scenario: session s1 wants MSFT,
session s2 wants nothing. -/
def desiredSets (sid : String) : List String :=
  if sid = "s1" then ["MSFT"] else []

/-- A settled state in which the single connection holds AAPL. -/
def stateHoldingAAPL : ServerState :=
  { ws_client := some { subscriptions := ["AAPL"], closed := false },
    current_subs := ["AAPL"] }

/-! ## Helper lemmas

Rational arithmetic (`tsToSeconds` models Python true division) does not
reduce inside the kernel, so the concrete timestamp instances are first
brought to integer seconds by `norm_num`; everything after that is plain
integer, calendar, and string computation. -/

lemma tsToSeconds_at_ms : tsToSeconds 1700000000000 = (1700000000 : Rat) := by
  unfold tsToSeconds; norm_num

lemma tsToSeconds_at_s : tsToSeconds 1700000000 = (1700000000 : Rat) := by
  unfold tsToSeconds; norm_num

lemma floor_seconds_const : ⌊(1700000000 : Rat)⌋ = 1700000000 := by
  norm_num

lemma to_iso_utc_at_ms : to_iso_utc (some 1700000000000) = some "2023-11-14T22:13:20+00:00" := by
  show some (isoStringAt ⌊tsToSeconds 1700000000000⌋ 0 "+00:00") = _
  rw [tsToSeconds_at_ms, floor_seconds_const]
  decide

lemma to_iso_utc_at_s : to_iso_utc (some 1700000000) = some "2023-11-14T22:13:20+00:00" := by
  show some (isoStringAt ⌊tsToSeconds 1700000000⌋ 0 "+00:00") = _
  rw [tsToSeconds_at_s, floor_seconds_const]
  decide

lemma to_iso_et_at_ms : to_iso_et (some 1700000000000) = some "2023-11-14T17:13:20-05:00" := by
  show some (isoStringAt ⌊tsToSeconds 1700000000000⌋
      (newYorkOffset ⌊tsToSeconds 1700000000000⌋)
      (offsetSuffix (newYorkOffset ⌊tsToSeconds 1700000000000⌋))) = _
  rw [tsToSeconds_at_ms, floor_seconds_const]
  decide

lemma to_iso_et_at_s : to_iso_et (some 1700000000) = some "2023-11-14T17:13:20-05:00" := by
  show some (isoStringAt ⌊tsToSeconds 1700000000⌋
      (newYorkOffset ⌊tsToSeconds 1700000000⌋)
      (offsetSuffix (newYorkOffset ⌊tsToSeconds 1700000000⌋))) = _
  rw [tsToSeconds_at_s, floor_seconds_const]
  decide

/-! ## Claim theorems -/

/-- C6: a raw epoch value strictly above 1e12 is read as milliseconds and
any other value as seconds; the raw value is passed through untouched in
the normalized event while both UTC and America/New_York ISO-8601 strings
are derived from it; in particular 1700000000000 (ms) and 1700000000 (s)
yield the identical UTC string and the identical New York string. -/
theorem timestamp_unit_disambiguation :
    tsToSeconds 1700000000000 = 1700000000
    ∧ tsToSeconds 1700000000 = 1700000000
    ∧ tsToSeconds (10 ^ 12) = 10 ^ 12
    ∧ to_iso_utc (some 1700000000000) = to_iso_utc (some 1700000000)
    ∧ to_iso_utc (some 1700000000) = some "2023-11-14T22:13:20+00:00"
    ∧ to_iso_et (some 1700000000000) = to_iso_et (some 1700000000)
    ∧ to_iso_et (some 1700000000) = some "2023-11-14T17:13:20-05:00"
    ∧ (∀ m : WebSocketMessage,
        (normalizeMsg m).t = getattr_timestamp m (getattr_end_timestamp m none)
        ∧ (normalizeMsg m).t_utc = to_iso_utc ((normalizeMsg m).t)
        ∧ (normalizeMsg m).t_et = to_iso_et ((normalizeMsg m).t)) := by
  refine ⟨by unfold tsToSeconds; norm_num, by unfold tsToSeconds; norm_num,
    by unfold tsToSeconds; norm_num,
    by rw [to_iso_utc_at_ms, to_iso_utc_at_s], to_iso_utc_at_s,
    by rw [to_iso_et_at_ms, to_iso_et_at_s], to_iso_et_at_s, ?_⟩
  intro m
  refine ⟨?_, ?_, ?_⟩ <;> (unfold normalizeMsg; dsimp only; split <;> rfl)

/-- C7: for a minute-aggregate (AM) vendor message the chosen timestamp
`t` (and the derived `t_utc` / `t_et`) is the aggregate window end time;
for a trade message it is the message's own timestamp field. -/
theorem chosen_timestamp_by_event_kind :
    (∀ a : EquityAgg,
        (normalizeMsg (.agg a)).t = a.end_timestamp
        ∧ (normalizeMsg (.agg a)).t_utc = to_iso_utc a.end_timestamp
        ∧ (normalizeMsg (.agg a)).t_et = to_iso_et a.end_timestamp)
    ∧ (∀ t : EquityTrade,
        (normalizeMsg (.trade t)).t = t.timestamp
        ∧ (normalizeMsg (.trade t)).t_utc = to_iso_utc t.timestamp
        ∧ (normalizeMsg (.trade t)).t_et = to_iso_et t.timestamp) := by
  constructor
  · intro a
    refine ⟨?_, ?_, ?_⟩ <;> (unfold normalizeMsg; dsimp only; split <;> rfl)
  · intro t
    refine ⟨?_, ?_, ?_⟩ <;> (unfold normalizeMsg; dsimp only; split <;> rfl)

/-- C8: normalization is total over partial messages — every message of a
batch yields exactly one normalized event, and fields absent from a
message become explicit `none` values (for an all-defaults trade, an
all-defaults aggregate, and an aggregate carrying only `ev = "AM"`, whose
aggregate block is filled with empty values) instead of raising. -/
theorem normalization_total_on_partial_messages :
    (∀ msgs : List WebSocketMessage, (handle_msg msgs).length = msgs.length)
    ∧ normalizeMsg (.trade {}) =
        { ev := none, sym := none, t := none, t_utc := none, t_et := none, agg := none }
    ∧ normalizeMsg (.agg {}) =
        { ev := none, sym := none, t := none, t_utc := none, t_et := none, agg := none }
    ∧ normalizeMsg (.agg { event_type := some "AM" }) =
        { ev := some "AM", sym := none, t := none, t_utc := none, t_et := none,
          agg := some { v := none, av := none, op := none, vw := none, o := none,
                        c := none, h := none, l := none, a := none, z := none,
                        s := none, e := none, otc := none } } := by
  refine ⟨?_, by decide, by decide, by decide⟩
  intro msgs
  simp [handle_msg]

/-- C9: both handlers are partial at the public interface — an inbound
command whose subscriptions list is empty or whose subscriptions key is
absent makes `msg.get("subscriptions", [])[0]` raise `IndexError` in
`subscribe_one` and in `unsubscribe_one`, whatever the server state. -/
theorem empty_command_raises_index_error :
    ∀ (ok : Bool) (sid : String) (st : ServerState),
      subscribe_one ok sid none st = .error .indexError
      ∧ subscribe_one ok sid (some []) st = .error .indexError
      ∧ unsubscribe_one ok sid none st = .error .indexError
      ∧ unsubscribe_one ok sid (some []) st = .error .indexError := by
  intro ok sid st
  exact ⟨rfl, rfl, rfl, rfl⟩

/-- C3: when the upstream subscribe call fails during `subscribe_one` on an
existing connection, the handler returns normally (`.ok`, no crash) with
the state untouched — the symbol is not added to `current_subs` and the
client set is unchanged — no acknowledgement emitted, and the error
logged. -/
theorem failed_subscribe_leaves_no_entry (sid sym : String) (st : ServerState)
    (c : WSClient) (hc : st.ws_client = some c) (hmem : sym ∉ st.current_subs) :
    subscribe_one false sid (some [sym]) st =
      .ok { state := st, emits := [], logs := [subscribeErrorLog sym sid] } := by
  unfold subscribe_one msgSubscriptions
  rw [Option.getD_some, List.head?_cons, hc]
  simp [hmem]

/-- Witness for C3 at a concrete state: one live connection holding A,
upstream failure while subscribing B. -/
theorem failed_subscribe_leaves_no_entry_witness :
    subscribe_one false "s1" (some ["B"])
        { ws_client := some { subscriptions := ["A"], closed := false }, current_subs := ["A"] } =
      .ok { state := { ws_client := some { subscriptions := ["A"], closed := false },
                       current_subs := ["A"] },
            emits := [], logs := [subscribeErrorLog "B" "s1"] } :=
  failed_subscribe_leaves_no_entry "s1" "B"
    { ws_client := some { subscriptions := ["A"], closed := false }, current_subs := ["A"] }
    { subscriptions := ["A"], closed := false } rfl (by decide)

/-- The symbol set carried by the upstream client, empty when no client
exists. -/
def clientSubs (st : ServerState) : List String :=
  match st.ws_client with
  | some c => c.subscriptions
  | none => []

/-- C4: removing a symbol that is not in the current subscription set is a
no-op and never an error — whatever the upstream outcome, `unsubscribe_one`
returns `.ok`, `current_subs` is unchanged, and the upstream client's
symbol set is unchanged (in any settled state, where the client set agrees
with `current_subs`). -/
theorem unsubscribe_absent_symbol_noop (ok : Bool) (sid sym : String) (st : ServerState)
    (hmem : sym ∉ st.current_subs)
    (hcoh : ∀ c, st.ws_client = some c → c.subscriptions = st.current_subs) :
    ∃ r, unsubscribe_one ok sid (some [sym]) st = .ok r
      ∧ r.state.current_subs = st.current_subs
      ∧ clientSubs r.state = clientSubs st := by
  unfold unsubscribe_one msgSubscriptions
  rw [Option.getD_some, List.head?_cons]
  match hc : st.ws_client with
  | none => exact ⟨_, rfl, rfl, by simp [clientSubs, hc]⟩
  | some c =>
    have hsubs : c.subscriptions = st.current_subs := hcoh c hc
    have herase : c.subscriptions.erase sym = c.subscriptions :=
      List.erase_of_not_mem (by rw [hsubs]; exact hmem)
    refine ⟨_, rfl, ?_, ?_⟩
    · simp [hmem]
    · simp [clientSubs, hc, hmem, herase]
      split <;> rfl


/-- Witness for C4 at a concrete state: connection holding A, removing the
absent symbol B with a succeeding upstream. -/
theorem unsubscribe_absent_symbol_noop_witness :
    ∃ r, unsubscribe_one true "s1" (some ["B"])
          { ws_client := some { subscriptions := ["A"], closed := false },
            current_subs := ["A"] } = .ok r
      ∧ r.state.current_subs = ["A"]
      ∧ clientSubs r.state =
          clientSubs { ws_client := some { subscriptions := ["A"], closed := false },
                       current_subs := ["A"] } :=
  unsubscribe_absent_symbol_noop true "s1" "B"
    { ws_client := some { subscriptions := ["A"], closed := false }, current_subs := ["A"] }
    (by decide) (fun c hc => by cases hc; rfl)

/-- C5 counterexample: re-subscribing a symbol the connection already holds
is not observationally a no-op toward the session — the handler still
emits a `"subscribed"` acknowledgement (with reason
`"added to existing connection"`), unlike not invoking it at all. -/
theorem resubscribe_still_acknowledges :
    subscribe_one true "s1" (some ["AAPL"]) stateHoldingAAPL =
      .ok { state := stateHoldingAAPL,
            emits := [.subscribed ["AAPL"] (some "added to existing connection") (some "s1")],
            logs := [] }
    ∧ [Emit.subscribed ["AAPL"] (some "added to existing connection") (some "s1")] ≠ [] := by
  exact ⟨rfl, by decide⟩

/-- C5 amended: re-subscribing an already-held symbol leaves the module
state (subscription list and upstream connection) unchanged, but still
emits the `"subscribed"` acknowledgement to the requester. -/
theorem resubscribe_held_symbol_state_noop (ok : Bool) (sid sym : String)
    (st : ServerState) (c : WSClient) (hc : st.ws_client = some c)
    (hmem : sym ∈ st.current_subs) :
    subscribe_one ok sid (some [sym]) st =
      .ok { state := st,
            emits := [.subscribed [sym] (some "added to existing connection") (some sid)],
            logs := [] } := by
  unfold subscribe_one msgSubscriptions
  rw [Option.getD_some, List.head?_cons, hc]
  simp [hmem]

/-- Witness for C5 at a concrete state: connection holding AAPL,
re-subscribing AAPL. -/
theorem resubscribe_held_symbol_state_noop_witness :
    subscribe_one true "s1" (some ["AAPL"]) stateHoldingAAPL =
      .ok { state := stateHoldingAAPL,
            emits := [.subscribed ["AAPL"] (some "added to existing connection") (some "s1")],
            logs := [] } :=
  resubscribe_held_symbol_state_noop true "s1" "AAPL" stateHoldingAAPL
    { subscriptions := ["AAPL"], closed := false } rfl (by decide)

/-- C10: when the upstream unsubscribe call raises during `unsubscribe_one`
for a held symbol, the exception is only logged — the symbol is still
removed from `current_subs` (first occurrence), the `"unsubscribed"`
acknowledgement with reason `"manual unsubscribe"` is still sent to the
requester, the close-when-empty step still runs, and the upstream client's
own symbol set is left unshrunk. -/
theorem unsubscribe_failure_not_atomic (sid sym : String) (st : ServerState)
    (c : WSClient) (hc : st.ws_client = some c) (hmem : sym ∈ st.current_subs) :
    unsubscribe_one false sid (some [sym]) st =
      .ok { state :=
              { ws_client := some (if st.current_subs.erase sym = []
                                   then { c with closed := true } else c),
                current_subs := st.current_subs.erase sym },
            emits := [.unsubscribed [sym] "manual unsubscribe" (some sid)],
            logs := [unsubscribeErrorLog] } := by
  unfold unsubscribe_one msgSubscriptions
  rw [Option.getD_some, List.head?_cons, hc]
  simp [hmem]

/-- Witness for C10 at a concrete state: the one connection holds only
AAPL, the upstream unsubscribe fails, the local removal empties the list,
and the close step still closes the client. -/
theorem unsubscribe_failure_not_atomic_witness :
    unsubscribe_one false "s1" (some ["AAPL"]) stateHoldingAAPL =
      .ok { state :=
              { ws_client := some (if (["AAPL"] : List String).erase "AAPL" = []
                                   then { subscriptions := ["AAPL"], closed := true }
                                   else { subscriptions := ["AAPL"], closed := false }),
                current_subs := (["AAPL"] : List String).erase "AAPL" },
            emits := [.unsubscribed ["AAPL"] "manual unsubscribe" (some "s1")],
            logs := [unsubscribeErrorLog] } :=
  unsubscribe_failure_not_atomic "s1" "AAPL" stateHoldingAAPL
    { subscriptions := ["AAPL"], closed := false } rfl (by decide)

/-- C2 counterexample: with sessions s1 and s2 connected and s2 holding no
desired symbols at all, the emission `handle_msg` schedules for an MSFT
event still reaches s2, because `_emit_polygon_data` broadcasts instead of
targeting — so delivery is not restricted to sessions whose desired set
contains the event's symbol. -/
theorem polygon_data_reaches_nonsubscriber :
    "MSFT" ∉ desiredSets "s2"
    ∧ (normalizeMsg msftTrade).sym = some "MSFT"
    ∧ handle_msg_emits [msftTrade] "s1" = [_emit_polygon_data (normalizeMsg msftTrade) "s1"]
    ∧ "s2" ∈ emitRecipients ["s1", "s2"] (_emit_polygon_data (normalizeMsg msftTrade) "s1") := by
  refine ⟨by decide, rfl, rfl, by decide⟩

/-- C2 amended: every `polygon_data` emission scheduled by `handle_msg` is
a broadcast — it reaches every connected session, independently of any
desired-symbol set. -/
theorem polygon_data_broadcasts_to_all (connected : List String)
    (msgs : List WebSocketMessage) (sid : String) (e : Emit)
    (he : e ∈ handle_msg_emits msgs sid) :
    emitRecipients connected e = connected := by
  unfold handle_msg_emits at he
  obtain ⟨m, _, rfl⟩ := List.mem_map.mp he
  rfl

/-- Witness for the amended C2: the MSFT event batch broadcast to the
two-session room. -/
theorem polygon_data_broadcasts_to_all_witness :
    emitRecipients ["s1", "s2"] (_emit_polygon_data (normalizeMsg msftTrade) "s1") = ["s1", "s2"] :=
  polygon_data_broadcasts_to_all ["s1", "s2"] [msftTrade] "s1"
    (_emit_polygon_data (normalizeMsg msftTrade) "s1") (by simp [handle_msg_emits])

/-- C1 counterexample: `close()` never resets `ws_client` to `None`, so
after the only symbol is unsubscribed (closing the connection) a further
`subscribe_one` reuses the dead handle — the sequence sub A, unsub A,
sub B settles with `current_subs = ["B"]` non-empty and no live upstream
client. -/
theorem subscribe_after_close_breaks_liveness :
    (runCmds [Cmd.sub "A", Cmd.unsub "A", Cmd.sub "B"]).current_subs = ["B"]
    ∧ liveClient (runCmds [Cmd.sub "A", Cmd.unsub "A", Cmd.sub "B"]) = false := by
  decide

/-! ### Step characterizations and invariants for command sequences -/

lemma liveClient_some (st : ServerState) (cl : WSClient) (hw : st.ws_client = some cl) :
    liveClient st = !cl.closed := by
  unfold liveClient
  rw [hw]

lemma stepCmd_sub_none (st : ServerState) (s : String) (hw : st.ws_client = none) :
    stepCmd st (.sub s) =
      { ws_client := some { subscriptions := [s], closed := false }, current_subs := [s] } := by
  simp [stepCmd, subscribe_one, msgSubscriptions, hw]

lemma stepCmd_sub_mem (st : ServerState) (s : String) (cl : WSClient)
    (hw : st.ws_client = some cl) (hm : s ∈ st.current_subs) :
    stepCmd st (.sub s) = st := by
  simp [stepCmd, subscribe_one, msgSubscriptions, hw, hm]

lemma stepCmd_sub_new (st : ServerState) (s : String) (cl : WSClient)
    (hw : st.ws_client = some cl) (hm : s ∉ st.current_subs) :
    stepCmd st (.sub s) =
      { ws_client := some { subscriptions := cl.subscriptions ++ [s], closed := cl.closed },
        current_subs := st.current_subs ++ [s] } := by
  simp [stepCmd, subscribe_one, msgSubscriptions, hw, hm]

lemma stepCmd_unsub_none (st : ServerState) (s : String) (hw : st.ws_client = none) :
    stepCmd st (.unsub s) = st := by
  simp [stepCmd, unsubscribe_one, msgSubscriptions, hw]

lemma stepCmd_unsub_some (st : ServerState) (s : String) (cl : WSClient)
    (hw : st.ws_client = some cl) :
    stepCmd st (.unsub s) =
      { ws_client := some
          (if (if s ∈ st.current_subs then st.current_subs.erase s else st.current_subs) = []
           then { subscriptions := cl.subscriptions.erase s, closed := true }
           else { subscriptions := cl.subscriptions.erase s, closed := cl.closed }),
        current_subs :=
          if s ∈ st.current_subs then st.current_subs.erase s else st.current_subs } := by
  simp [stepCmd, unsubscribe_one, msgSubscriptions, hw]

/-- The one direction that holds for arbitrary command sequences: a live
client is only ever present while the subscription list is non-empty. -/
lemma live_imp_nonempty_step (st : ServerState) (c : Cmd)
    (ih : liveClient st = true → st.current_subs ≠ []) :
    liveClient (stepCmd st c) = true → (stepCmd st c).current_subs ≠ [] := by
  cases c with
  | sub s =>
    cases hw : st.ws_client with
    | none => rw [stepCmd_sub_none st s hw]; intro _; simp
    | some cl =>
      by_cases hm : s ∈ st.current_subs
      · rw [stepCmd_sub_mem st s cl hw hm]; exact ih
      · rw [stepCmd_sub_new st s cl hw hm]; intro _; simp
  | unsub s =>
    cases hw : st.ws_client with
    | none => rw [stepCmd_unsub_none st s hw]; exact ih
    | some cl =>
      rw [stepCmd_unsub_some st s cl hw]
      by_cases he : (if s ∈ st.current_subs then st.current_subs.erase s else st.current_subs) = []
      · rw [if_pos he]
        intro hl
        simp [liveClient] at hl
      · rw [if_neg he]
        intro _
        simpa using he

lemma live_imp_nonempty_foldl (cs : List Cmd) (st : ServerState)
    (ih : liveClient st = true → st.current_subs ≠ []) :
    liveClient (cs.foldl stepCmd st) = true → (cs.foldl stepCmd st).current_subs ≠ [] := by
  induction cs generalizing st with
  | nil => simpa using ih
  | cons c cs ihcs => exact ihcs _ (live_imp_nonempty_step st c ih)

/-- Invariant holding while only subscribe commands have run: either no
client was ever created and nothing is subscribed, or the client is live
and something is subscribed. -/
def GoodState (st : ServerState) : Prop :=
  (st.ws_client = none ∧ st.current_subs = []) ∨
  (liveClient st = true ∧ st.current_subs ≠ [])

/-- The aggregate invariant of the claim: a live upstream client exists
exactly when the subscription list is non-empty. -/
def LiveIffNonempty (st : ServerState) : Prop :=
  liveClient st = true ↔ st.current_subs ≠ []

lemma goodState_init : GoodState initState := Or.inl ⟨rfl, rfl⟩

lemma goodState_sub_step (st : ServerState) (s : String) (h : GoodState st) :
    GoodState (stepCmd st (.sub s)) := by
  rcases h with ⟨hw, _⟩ | ⟨hl, hc⟩
  · rw [stepCmd_sub_none st s hw]
    exact Or.inr ⟨rfl, by simp⟩
  · cases hw : st.ws_client with
    | none => simp [liveClient, hw] at hl
    | some cl =>
      have hcl : cl.closed = false := by
        have := liveClient_some st cl hw
        rw [this] at hl
        simpa using hl
      by_cases hm : s ∈ st.current_subs
      · rw [stepCmd_sub_mem st s cl hw hm]
        exact Or.inr ⟨hl, hc⟩
      · rw [stepCmd_sub_new st s cl hw hm]
        exact Or.inr ⟨by simp [liveClient, hcl], by simp⟩

lemma goodState_imp_iff (st : ServerState) (h : GoodState st) : LiveIffNonempty st := by
  rcases h with ⟨hw, hc⟩ | ⟨hl, hc⟩
  · constructor
    · intro hl
      rw [liveClient, hw] at hl
      cases hl
    · intro hne
      exact absurd hc hne
  · exact ⟨fun _ => hc, fun _ => hl⟩

lemma iff_unsub_step (st : ServerState) (s : String) (h : LiveIffNonempty st) :
    LiveIffNonempty (stepCmd st (.unsub s)) := by
  cases hw : st.ws_client with
  | none => rw [stepCmd_unsub_none st s hw]; exact h
  | some cl =>
    rw [stepCmd_unsub_some st s cl hw]
    by_cases he : (if s ∈ st.current_subs then st.current_subs.erase s else st.current_subs) = []
    · rw [if_pos he]
      constructor
      · intro hl
        simp [liveClient] at hl
      · intro hne
        exact absurd he (by simpa using hne)
    · rw [if_neg he]
      constructor
      · intro _
        simpa using he
      · intro _
        have hcur : st.current_subs ≠ [] := by
          intro h0
          exact he (by simp [h0])
        have hl : liveClient st = true := h.mpr hcur
        have hcl : cl.closed = false := by
          have := liveClient_some st cl hw
          rw [this] at hl
          simpa using hl
        simp [liveClient, hcl]

lemma goodState_foldl_subs (l1 : List Cmd) :
    ∀ st : ServerState, (∀ c ∈ l1, c.isSub = true) → GoodState st →
      GoodState (l1.foldl stepCmd st) := by
  induction l1 with
  | nil => exact fun st _ h => h
  | cons c cs ih =>
    intro st h1 h
    cases c with
    | sub s =>
      exact ih _ (fun c hc => h1 c (List.mem_cons_of_mem _ hc)) (goodState_sub_step st s h)
    | unsub s =>
      exact absurd (h1 _ (List.mem_cons_self _ _)) (by simp [Cmd.isSub])

lemma iff_foldl_unsubs (l2 : List Cmd) :
    ∀ st : ServerState, (∀ c ∈ l2, c.isUnsub = true) → LiveIffNonempty st →
      LiveIffNonempty (l2.foldl stepCmd st) := by
  induction l2 with
  | nil => exact fun st _ h => h
  | cons c cs ih =>
    intro st h2 h
    cases c with
    | sub s =>
      exact absurd (h2 _ (List.mem_cons_self _ _)) (by simp [Cmd.isUnsub])
    | unsub s =>
      exact ih _ (fun c hc => h2 c (List.mem_cons_of_mem _ hc)) (iff_unsub_step st s h)

/-- C1 (amended): when the only session removes its only symbol, the
client is closed yet retained (`ws_client` stays set) and `/api/subs`
returns an empty list; for every settled command sequence an empty
`current_subs` implies no live upstream client; and the full equivalence —
live client iff non-empty `current_subs` — holds for every sequence in
which all subscribes precede all unsubscribes (the counterexample shows it
fails once a subscribe follows the close, since `ws_client` is never reset
to `None`). -/
theorem upstream_client_iff_subs_nonempty (cs l1 l2 : List Cmd)
    (h1 : ∀ c ∈ l1, c.isSub = true) (h2 : ∀ c ∈ l2, c.isUnsub = true) :
    (liveClient (runCmds [Cmd.sub "AAPL", Cmd.unsub "AAPL"]) = false
      ∧ (runCmds [Cmd.sub "AAPL", Cmd.unsub "AAPL"]).ws_client.isSome = true
      ∧ get_subs (runCmds [Cmd.sub "AAPL", Cmd.unsub "AAPL"]) = { subs := [] })
    ∧ ((runCmds cs).current_subs = [] → liveClient (runCmds cs) = false)
    ∧ (liveClient (runCmds (l1 ++ l2)) = true ↔ (runCmds (l1 ++ l2)).current_subs ≠ []) := by
  refine ⟨⟨by decide, by decide, by decide⟩, ?_, ?_⟩
  · intro h0
    have hstep := live_imp_nonempty_foldl cs initState (fun habs => by cases habs)
    cases hlv : liveClient (runCmds cs) with
    | false => rfl
    | true => exact absurd h0 (hstep hlv)
  · have hS := iff_foldl_unsubs l2 (l1.foldl stepCmd initState) h2
      (goodState_imp_iff _ (goodState_foldl_subs l1 initState h1 goodState_init))
    rw [runCmds, List.foldl_append]
    exact hS

/-- Witness for C1 at the concrete sequence subscribe AAPL then
unsubscribe AAPL. -/
theorem upstream_client_iff_subs_nonempty_witness :
    (∀ c ∈ [Cmd.sub "AAPL"], c.isSub = true)
    ∧ (∀ c ∈ [Cmd.unsub "AAPL"], c.isUnsub = true)
    ∧ (liveClient (runCmds ([Cmd.sub "AAPL"] ++ [Cmd.unsub "AAPL"])) = true ↔
        (runCmds ([Cmd.sub "AAPL"] ++ [Cmd.unsub "AAPL"])).current_subs ≠ []) :=
  ⟨by decide, by decide,
    (upstream_client_iff_subs_nonempty [] [Cmd.sub "AAPL"] [Cmd.unsub "AAPL"]
      (by decide) (by decide)).2.2⟩

end Magikarp
